import Mathlib

/-!
Verification development for the Genovive scoring & recommendation engine
(`src/Genovive.py`).  The core pipeline is embedded shallowly: machine
floats become exact rationals (every quantity the program computes on the
reachable inputs is a finite decimal / rational, so ℚ is a faithful carrier
for the arithmetic of `np.interp`, `np.clip`, `abs` and `+`), Python lists
become `List`, the keyword tests of `parse_notes` become decidable
substring checks over lowered character lists, and the Streamlit
session state (its only persistent field, `history`) becomes an explicit
state value threaded through `run_pipeline`.
-/

namespace Genovive

/-- `np.clip(x, lo, hi)` = `min(max(x, lo), hi)` (numpy semantics). -/
def npClip (x lo hi : ℚ) : ℚ := min (max x lo) hi

/-- `np.interp(x, [x0, x1], [y0, y1])`: constant `y0` left of `x0`,
constant `y1` right of `x1`, linear in between (numpy semantics for a
two-point increasing grid `x0 < x1`). -/
def npInterp (x x0 x1 y0 y1 : ℚ) : ℚ :=
  if x ≤ x0 then y0
  else if x1 ≤ x then y1
  else y0 + (x - x0) * (y1 - y0) / (x1 - x0)

/-! ## Note Flag Extractor (`parse_notes`, lines 217–229) -/

/-- `leadsWith pat s` = `pat` is a prefix of the character list `s`. -/
def leadsWith : List Char → List Char → Bool
  | [], _ => true
  | _ :: _, [] => false
  | p :: ps, c :: cs => p == c && leadsWith ps cs

/-- `occursIn pat s` = `pat` occurs as a contiguous sublist of `s`;
this is Python's substring operator `pat in s`. -/
def occursIn (pat : List Char) : List Char → Bool
  | [] => leadsWith pat []
  | c :: cs => leadsWith pat (c :: cs) || occursIn pat cs

/-- One keyword test `k in text_low` from `parse_notes`. -/
def kwHit (text_low : List Char) (k : String) : Bool := occursIn k.data text_low

/-- The seven boolean clinical flags produced by `parse_notes`
(Python dict with exactly these seven keys, always fully populated). -/
structure NoteFlags where
  pcos : Bool
  endometriosis : Bool
  irregular_cycles : Bool
  thyroid : Bool
  male_factor : Bool
  infection : Bool
  hyperprolactinemia : Bool
deriving DecidableEq

/-- `parse_notes` (lines 217–229): lower-case the text and test fixed
keyword lists for substring membership, one list per flag. -/
def parse_notes (text : String) : NoteFlags :=
  let text_low := text.data.map Char.toLower
  { pcos := (["pcos", "polycystic", "cysts", "androgen", "hirsutism"]).any (kwHit text_low),
    endometriosis := (["endometriosis", "pelvic pain", "dyspareunia", "dysmenorrhea"]).any (kwHit text_low),
    irregular_cycles := (["irregular", "oligomenorrhea", "amenorrhea"]).any (kwHit text_low),
    thyroid := (["tsh", "thyroid", "hypothyroid", "hyperthyroid"]).any (kwHit text_low),
    male_factor := (["semen", "sperm", "motility", "count", "morphology"]).any (kwHit text_low),
    infection := (["infection", "uti", "pid", "inflammation", "discharge"]).any (kwHit text_low),
    hyperprolactinemia := (["prolactin", "galactorrhea"]).any (kwHit text_low) }

/-! ## Risk Scorer (`mock_predict`, lines 231–269) -/

/-- The six numeric clinical inputs (`features` list, in unpacking order). -/
structure Features where
  age : ℚ
  bmi : ℚ
  amh : ℚ
  fsh : ℚ
  lh : ℚ
  estradiol : ℚ
deriving DecidableEq

/-- The fixed risk-associated gene list iterated at line 253. -/
def riskGenes : List String :=
  ["FOXP3", "STAT3", "GATA4", "ZEB2", "PDGFRB", "ESR1", "PGR", "FSHR", "HOXA10", "ITGB3"]

/-- `gene_risk` accumulation loop (lines 252–256): 2.5 points per
risk-associated gene present in the selection. -/
def gene_risk (genes_sel : List String) : ℚ :=
  riskGenes.foldl (fun acc g => if g ∈ genes_sel then acc + 2.5 else acc) 0

/-- Flag bonuses (lines 258–263), added in source order. -/
def flag_bonus (flags : NoteFlags) : ℚ :=
  (if flags.pcos then 6 else 0) + (if flags.endometriosis then 5 else 0)
    + (if flags.thyroid then 4 else 0) + (if flags.hyperprolactinemia then 4 else 0)
    + (if flags.infection then 3 else 0) + (if flags.male_factor then 2 else 0)

/-- Estradiol contribution (lines 247–250): 8 points outside [30, 300], else 3. -/
def estradiol_term (e : ℚ) : ℚ := if e < 30 ∨ 300 < e then 8 else 3

/-- The un-clipped additive score of `mock_predict` (lines 235–263). -/
def raw_score (f : Features) (genes_sel : List String) (flags : NoteFlags) : ℚ :=
  npInterp f.age 18 50 5 25 + npInterp f.bmi 18.5 35 5 20
    + npInterp f.amh 0.1 6.0 25 2 + npInterp f.fsh 1.0 20.0 2 18
    + npInterp f.lh 1.0 20.0 2 15 + estradiol_term f.estradiol
    + gene_risk genes_sel + flag_bonus flags

/-- The clipped score `float(np.clip(score, 0, 100))` (line 265). -/
def mock_score (f : Features) (genes_sel : List String) (flags : NoteFlags) : ℚ :=
  npClip (raw_score f genes_sel flags) 0 100

def likelyInfertile : String := "Likely Infertile"

def likelyFertile : String := "Likely Fertile"

/-- Labelling rule of line 266: `"Likely Infertile" if score >= 55 else "Likely Fertile"`. -/
def labelOf (score : ℚ) : String :=
  if 55 ≤ score then likelyInfertile else likelyFertile

/-- Confidence (lines 267–268): `np.clip(0.55 + abs(score-55)/100, 0.55, 0.95)`. -/
def mock_confidence (f : Features) (genes_sel : List String) (flags : NoteFlags) : ℚ :=
  npClip (0.55 + |mock_score f genes_sel flags - 55| / 100) 0.55 0.95

/-- `mock_predict` (lines 231–269): returns `(label, confidence, score)`. -/
def mock_predict (f : Features) (genes_sel : List String) (flags : NoteFlags) :
    String × ℚ × ℚ :=
  (labelOf (mock_score f genes_sel flags), mock_confidence f genes_sel flags,
    mock_score f genes_sel flags)

/-! ## Recommendation Engine (`suggest_tests` / `suggest_medicines`,
lines 361–441).  Python's `tests.append` / `tests += [...]` under an `if`
is embedded as concatenation with an `if`-guarded segment, and the final
`list(dict.fromkeys(...))` as `dedupFirst`. -/

/-- First-occurrence deduplication, `list(dict.fromkeys(l))`: scan left to
right keeping each element the first time it is seen. -/
def dedupFirstAux (seen : List String) : List String → List String
  | [] => []
  | x :: xs => if x ∈ seen then dedupFirstAux seen xs else x :: dedupFirstAux (x :: seen) xs

def dedupFirst (l : List String) : List String := dedupFirstAux [] l

def tEstradiolRepeat : String := "Estradiol Day-3 repeat"

def tAFC : String := "Antral Follicle Count (AFC) via ultrasound"

def tRepeatFSH : String := "Repeat Day-3 FSH + Estradiol"

def tOGTT : String := "Oral Glucose Tolerance Test (OGTT)"

def tFreeT : String := "Free testosterone"

def tDHEAS : String := "DHEA-S"

def tHOMA : String := "Fasting insulin + HOMA-IR"

def tUSG : String := "Transvaginal USG / MRI pelvis"

def tCA125 : String := "CA-125 (supportive, not diagnostic)"

def tTSH : String := "TSH"

def tFreeT4 : String := "Free T4"

def tAntiTPO : String := "Anti-TPO antibodies"

def tSemen : String := "Semen analysis (WHO 2021)"

def tDNAFrag : String := "DNA fragmentation index (if indicated)"

def tSwab : String := "Cervical/vaginal swab culture"

def tCRP : String := "CRP/ESR (inflammation markers)"

def tProlactin : String := "Serum Prolactin (fasting, repeat if elevated)"

def tHSG : String := "HSG (Fallopian tube patency)"

def tImmune : String := "Immune profiling (Tregs, autoantibodies)"

def tEMT : String := "Endometrial biopsy – EMT markers"

def tERA : String := "Endometrial receptivity assay / Doppler blood flow"

def tThickness : String := "Endometrial thickness tracking across cycle"

/-- The test list of `suggest_tests` (lines 361–401) before deduplication. -/
def raw_tests (h : Features) (genes_sel : List String) (flags : NoteFlags) : List String :=
  (if h.estradiol < 30 then [tEstradiolRepeat] else [])
    ++ (if h.amh < 1.0 then [tAFC] else [])
    ++ (if 10 < h.fsh then [tRepeatFSH] else [])
    ++ (if 30 < h.bmi then [tOGTT] else [])
    ++ (if flags.pcos ∨ 12 < h.lh ∨ 27 ≤ h.bmi then [tFreeT, tDHEAS, tHOMA] else [])
    ++ (if flags.endometriosis then [tUSG, tCA125] else [])
    ++ (if flags.thyroid then [tTSH, tFreeT4, tAntiTPO] else [])
    ++ (if flags.male_factor then [tSemen, tDNAFrag] else [])
    ++ (if flags.infection then [tSwab, tCRP] else [])
    ++ (if flags.hyperprolactinemia then [tProlactin] else [])
    ++ [tHSG]
    ++ (if ("FOXP3" : String) ∈ genes_sel then [tImmune] else [])
    ++ (if ("ZEB2" : String) ∈ genes_sel then [tEMT] else [])
    ++ (if ("PDGFRB" : String) ∈ genes_sel then [tERA] else [])
    ++ (if ("ESR1" : String) ∈ genes_sel ∨ ("PGR" : String) ∈ genes_sel then [tThickness] else [])

/-- `suggest_tests` (lines 361–404): the rule table, then `list(dict.fromkeys(tests))`. -/
def suggest_tests (h : Features) (genes_sel : List String) (flags : NoteFlags) : List String :=
  dedupFirst (raw_tests h genes_sel flags)

def mLetrozole : String := "Letrozole – ovulation induction"

def mClomiphene : String := "Clomiphene Citrate – ovulation induction"

def mDHEA : String := "DHEA (discuss dosing) – may support ovarian reserve"

def mCoQ10 : String := "CoQ10 – mitochondrial support"

def mMetformin : String := "Metformin – if insulin resistance suspected"

def mInositol : String := "Myo-inositol + D-chiro-inositol"

def mProgesterone : String := "Progesterone support (luteal phase, clinician-guided)"

def mEstrogenPriming : String := "Estrogen priming protocol for thin endometrium (specialist care)"

def mAntiInflam : String := "Anti-inflammatory plan (e.g., omega-3, short NSAID course if appropriate)"

def mImmunomod : String := "Immunomodulatory strategy – consider Treg support (specialist)"

def mLevothyroxine : String := "Levothyroxine – if hypothyroid (target TSH per guidelines)"

def mCabergoline : String := "Cabergoline – if prolactin confirmed high (endocrinology)"

def mFolic : String := "Folic acid 400–800 µg/day"

def mVitD : String := "Vitamin D repletion if low"

/-- The medicine list of `suggest_medicines` (lines 406–437) before deduplication. -/
def raw_meds (h : Features) (genes_sel : List String) (flags : NoteFlags) : List String :=
  (if 12 < h.fsh ∨ 12 < h.lh then [mLetrozole, mClomiphene] else [])
    ++ (if h.amh < 1.5 then [mDHEA, mCoQ10] else [])
    ++ (if flags.pcos ∨ 27 ≤ h.bmi then [mMetformin, mInositol] else [])
    ++ (if ("PGR" : String) ∈ genes_sel ∨ h.estradiol < 50 then [mProgesterone] else [])
    ++ (if ("ESR1" : String) ∈ genes_sel then [mEstrogenPriming] else [])
    ++ (if ("STAT3" : String) ∈ genes_sel ∨ flags.endometriosis ∨ flags.infection then [mAntiInflam] else [])
    ++ (if ("FOXP3" : String) ∈ genes_sel then [mImmunomod] else [])
    ++ (if flags.thyroid then [mLevothyroxine] else [])
    ++ (if flags.hyperprolactinemia then [mCabergoline] else [])
    ++ [mFolic, mVitD]

/-- `suggest_medicines` (lines 406–441): the rule table, then `list(dict.fromkeys(recs))`. -/
def suggest_medicines (h : Features) (genes_sel : List String) (flags : NoteFlags) : List String :=
  dedupFirst (raw_meds h genes_sel flags)

/-! ## Next-Step Planner (`agentic_next_steps`, lines 443–458) -/

def sRetest : String := "Re-test key hormones in next cycle window (Day 2–4)"

def sUSG : String := "Schedule transvaginal ultrasound for AFC and endometrium assessment"

def sPCOS : String := "Initiate PCOS pathway: nutrition + insulin resistance workup"

def sLap : String := "Refer for laparoscopy consult if pain severe"

def sLifestyle12 : String := "Begin 12-week lifestyle protocol alongside medication trial"

def sFollowUp : String := "Set follow-up at 6–8 weeks to evaluate response"

def sMaintain : String := "Maintain lifestyle optimization; track cycles for 3 months"

def sTiming : String := "Time intercourse/IUI during predicted fertile window"

def sTSHOpt : String := "TSH optimization with endocrinology consult"

def ellipsisMark : String := "…"

/-- The `", ".join(l[:5]) + ("…" if len(l)>5 else "")` summarisation of a list. -/
def firstFive (l : List String) : String :=
  String.intercalate (", ") (l.take 5) ++ (if 5 < l.length then ellipsisMark else ("" : String))

/-- The branch-dependent part of `agentic_next_steps` (lines 444–455). -/
def branch_steps (score : ℚ) (flags : NoteFlags) : List String :=
  if 55 ≤ score then
    [sRetest, sUSG] ++ (if flags.pcos then [sPCOS] else [])
      ++ (if flags.endometriosis then [sLap] else []) ++ [sLifestyle12, sFollowUp]
  else
    [sMaintain, sTiming] ++ (if flags.thyroid then [sTSHOpt] else [])

/-- `agentic_next_steps` (lines 443–458): the branch steps, then a tests
summary line if `len(tests) > 0`, then a meds summary line if `len(meds) > 0`. -/
def agentic_next_steps (score : ℚ) (flags : NoteFlags) (tests meds : List String) :
    List String :=
  branch_steps score flags
    ++ (if 0 < tests.length then [("Order tests: ") ++ firstFive tests] else [])
    ++ (if 0 < meds.length then [("Start/consider meds: ") ++ firstFive meds] else [])

/-! ## Session History Tracker (`push_history`, lines 108–114) -/

/-- A history entry: (timestamp, score).  Timestamps are abstracted to ℕ
(the code stores `datetime.now()` and never reads it back in the core). -/
abbrev HistEntry := ℕ × ℚ

/-- Python's `l[-20:]`: the last `n` elements of `l` (all of `l` if shorter). -/
def takeLast (n : ℕ) (l : List HistEntry) : List HistEntry := l.drop (l.length - n)

/-- `push_history` (lines 111–114): append, then keep the last 20. -/
def push_history (h : List HistEntry) (e : HistEntry) : List HistEntry :=
  takeLast 20 (h ++ [e])

/-- Repeated recording of entries, oldest first. -/
def pushMany (h : List HistEntry) (es : List HistEntry) : List HistEntry :=
  es.foldl push_history h

/-! ## The run pipeline (lines 463–468 and the Notes & AI tab, 605–630) -/

/-- Everything the run renders from the core (derived values, no state). -/
structure RunOutput where
  label : String
  confidence : ℚ
  score : ℚ
  flags : NoteFlags
  tests : List String
  meds : List String
  steps : List String
deriving DecidableEq

/-- The whole persistent session state: `st.session_state` initialises
exactly one field used by the core, `history` (line 108). -/
structure SessionState where
  history : List HistEntry
deriving DecidableEq

/-- The `run_btn` pipeline (lines 463–468, tests/meds/steps from the tab
code at 605–630): parse notes, predict, push the score into history,
derive recommendations and steps.  `now` abstracts `datetime.now()`. -/
def run_pipeline (now : ℕ) (f : Features) (genes_sel : List String) (notes : String)
    (s : SessionState) : RunOutput × SessionState :=
  let flags := parse_notes notes
  let p := mock_predict f genes_sel flags
  let s' : SessionState := ⟨push_history s.history (now, p.2.2)⟩
  let meds := suggest_medicines f genes_sel flags
  let tests := suggest_tests f genes_sel flags
  let steps := agentic_next_steps p.2.2 flags tests meds
  (⟨p.1, p.2.1, p.2.2, flags, tests, meds, steps⟩, s')

/-! ## Spec-side definition for the deduplication claim -/

/-- Modelled from the spec: "Order = first-insertion order; duplicates
removed while preserving first occurrence" — fold left, appending each
element only when it is not already present. -/
def firstOccurrenceDedup (l : List String) : List String :=
  l.foldl (fun acc x => if x ∈ acc then acc else acc ++ [x]) []

/-- All-false flags (keyword-free notes). -/
def noFlags : NoteFlags :=
  { pcos := false, endometriosis := false, irregular_cycles := false, thyroid := false,
    male_factor := false, infection := false, hyperprolactinemia := false }

/-- The concrete scenario inputs of the spec: age 30, BMI 22.0, AMH 2.5,
FSH 6.0, LH 5.0, estradiol 50. -/
def scenarioFeatures : Features :=
  { age := 30, bmi := 22, amh := 2.5, fsh := 6, lh := 5, estradiol := 50 }

/-! ## Helper lemmas: clipping and interpolation -/

theorem npClip_le_hi (x lo hi : ℚ) : npClip x lo hi ≤ hi := min_le_right _ _

theorem le_npClip (x lo hi : ℚ) (h : lo ≤ hi) : lo ≤ npClip x lo hi :=
  le_min (le_max_right _ _) h

theorem npClip_mono {x y : ℚ} (lo hi : ℚ) (h : x ≤ y) : npClip x lo hi ≤ npClip y lo hi :=
  min_le_min (max_le_max h le_rfl) le_rfl

theorem npInterp_mono {x0 x1 y0 y1 a b : ℚ} (hx : x0 < x1) (hy : y0 ≤ y1) (hab : a ≤ b) :
    npInterp a x0 x1 y0 y1 ≤ npInterp b x0 x1 y0 y1 := by
  have hd : (0 : ℚ) < x1 - x0 := by linarith
  have hd' : x1 - x0 ≠ 0 := ne_of_gt hd
  have hc : 0 ≤ (y1 - y0) / (x1 - x0) := div_nonneg (by linarith) (le_of_lt hd)
  have hkey : (y1 - y0) / (x1 - x0) * (x1 - x0) = y1 - y0 := div_mul_cancel₀ _ hd'
  unfold npInterp
  by_cases hA1 : a ≤ x0
  · rw [if_pos hA1]
    by_cases hB1 : b ≤ x0
    · rw [if_pos hB1]
    · rw [if_neg hB1]
      by_cases hB2 : x1 ≤ b
      · rw [if_pos hB2]; exact hy
      · rw [if_neg hB2, mul_div_assoc]
        nlinarith [mul_nonneg (by linarith : (0 : ℚ) ≤ b - x0) hc]
  · rw [if_neg hA1]
    have hB1 : ¬ b ≤ x0 := by intro hb; exact hA1 (le_trans hab hb)
    by_cases hA2 : x1 ≤ a
    · rw [if_pos hA2, if_neg hB1, if_pos (le_trans hA2 hab)]
    · rw [if_neg hA2, if_neg hB1, mul_div_assoc]
      by_cases hB2 : x1 ≤ b
      · rw [if_pos hB2]
        nlinarith [mul_le_mul_of_nonneg_right (by linarith : a - x0 ≤ x1 - x0) hc]
      · rw [if_neg hB2, mul_div_assoc]
        nlinarith [mul_le_mul_of_nonneg_right (by linarith : a - x0 ≤ b - x0) hc]

theorem npInterp_anti {x0 x1 y0 y1 a b : ℚ} (hx : x0 < x1) (hy : y1 ≤ y0) (hab : a ≤ b) :
    npInterp b x0 x1 y0 y1 ≤ npInterp a x0 x1 y0 y1 := by
  have hneg : ∀ x, npInterp x x0 x1 y0 y1 = -npInterp x x0 x1 (-y0) (-y1) := by
    intro x
    unfold npInterp
    by_cases h1 : x ≤ x0
    · rw [if_pos h1, if_pos h1, neg_neg]
    · rw [if_neg h1, if_neg h1]
      by_cases h2 : x1 ≤ x
      · rw [if_pos h2, if_pos h2, neg_neg]
      · rw [if_neg h2, if_neg h2]; ring
  rw [hneg a, hneg b, neg_le_neg_iff]
  exact npInterp_mono hx (by linarith) hab

/-! ## Helper lemmas: first-occurrence deduplication -/

theorem mem_dedupFirstAux {a : String} (l : List String) :
    ∀ seen : List String, a ∈ dedupFirstAux seen l ↔ a ∈ l ∧ a ∉ seen := by
  induction l with
  | nil => intro seen; simp [dedupFirstAux]
  | cons x xs ih =>
    intro seen
    by_cases hx : x ∈ seen
    · rw [dedupFirstAux, if_pos hx, ih]
      constructor
      · rintro ⟨h1, h2⟩; exact ⟨List.mem_cons_of_mem _ h1, h2⟩
      · rintro ⟨h1, h2⟩
        rcases List.mem_cons.mp h1 with h1 | h1
        · subst h1; exact absurd hx h2
        · exact ⟨h1, h2⟩
    · rw [dedupFirstAux, if_neg hx]
      rw [List.mem_cons, ih]
      constructor
      · rintro (rfl | ⟨h1, h2⟩)
        · exact ⟨List.mem_cons_self _ _, hx⟩
        · refine ⟨List.mem_cons_of_mem _ h1, fun hs => h2 (List.mem_cons_of_mem _ hs)⟩
      · rintro ⟨h1, h2⟩
        rcases List.mem_cons.mp h1 with h1 | h1
        · exact Or.inl h1
        · by_cases hax : a = x
          · exact Or.inl hax
          · refine Or.inr ⟨h1, fun hs => ?_⟩
            rcases List.mem_cons.mp hs with hs | hs
            · exact hax hs
            · exact h2 hs

theorem nodup_dedupFirstAux (l : List String) :
    ∀ seen : List String, (dedupFirstAux seen l).Nodup := by
  induction l with
  | nil => intro seen; simp [dedupFirstAux]
  | cons x xs ih =>
    intro seen
    by_cases hx : x ∈ seen
    · rw [dedupFirstAux, if_pos hx]; exact ih seen
    · rw [dedupFirstAux, if_neg hx]
      refine List.nodup_cons.mpr ⟨fun hmem => ?_, ih _⟩
      exact ((mem_dedupFirstAux xs (x :: seen)).mp hmem).2 (List.mem_cons_self _ _)

theorem mem_dedupFirst {a : String} (l : List String) : a ∈ dedupFirst l ↔ a ∈ l := by
  rw [dedupFirst, mem_dedupFirstAux]
  simp

theorem nodup_dedupFirst (l : List String) : (dedupFirst l).Nodup :=
  nodup_dedupFirstAux l []

theorem foldl_insert_eq_dedupFirstAux (l : List String) :
    ∀ acc seen : List String, (∀ y, y ∈ seen ↔ y ∈ acc) →
      l.foldl (fun acc x => if x ∈ acc then acc else acc ++ [x]) acc =
        acc ++ dedupFirstAux seen l := by
  induction l with
  | nil => intro acc seen _; simp [dedupFirstAux]
  | cons x xs ih =>
    intro acc seen hinv
    by_cases hx : x ∈ acc
    · have hx' : x ∈ seen := (hinv x).mpr hx
      rw [List.foldl_cons, if_pos hx, dedupFirstAux, if_pos hx']
      exact ih acc seen hinv
    · have hx' : x ∉ seen := fun hs => hx ((hinv x).mp hs)
      rw [List.foldl_cons, if_neg hx, dedupFirstAux, if_neg hx']
      rw [ih (acc ++ [x]) (x :: seen) ?_, List.append_assoc]
      · simp
      · intro y
        rw [List.mem_cons, List.mem_append, List.mem_singleton, hinv y, or_comm]

theorem dedupFirst_eq_firstOccurrenceDedup (l : List String) :
    dedupFirst l = firstOccurrenceDedup l := by
  rw [firstOccurrenceDedup, foldl_insert_eq_dedupFirstAux l [] [] (by simp)]
  rw [List.nil_append, dedupFirst]

/-! ## Helper lemmas: history -/

theorem takeLast_eq_reverse_take (n : ℕ) (l : List HistEntry) :
    takeLast n l = (l.reverse.take n).reverse := by
  have := List.reverse_take (l := l.reverse) (n := n)
  rw [List.reverse_reverse, List.length_reverse] at this
  rw [takeLast, ← this]

theorem takeLast_append_takeLast (x y : List HistEntry) :
    takeLast 20 (takeLast 20 x ++ y) = takeLast 20 (x ++ y) := by
  rw [takeLast_eq_reverse_take, takeLast_eq_reverse_take, takeLast_eq_reverse_take]
  rw [List.reverse_append, List.reverse_reverse, List.reverse_append]
  rw [List.take_append_eq_append_take, List.take_append_eq_append_take, List.take_take]
  rw [min_eq_left (Nat.sub_le _ _)]

theorem pushMany_cons_eq (es : List HistEntry) :
    ∀ (h : List HistEntry) (e : HistEntry),
      pushMany h (e :: es) = takeLast 20 (h ++ e :: es) := by
  induction es with
  | nil => intro h e; rfl
  | cons e' es' ih =>
    intro h e
    show pushMany (push_history h e) (e' :: es') = _
    rw [ih (push_history h e) e', push_history, takeLast_append_takeLast]
    rw [List.append_assoc, List.singleton_append]

/-! ## Claim theorems -/

/-- C1: for every combination of the six numeric inputs, any gene selection
and any flag assignment, the returned score lies in [0, 100], the returned
confidence lies in [0.55, 0.95], and the confidence equals
clamp(0.55 + |score − 55| / 100, 0.55, 0.95). -/
theorem claim_C1 (f : Features) (g : List String) (fl : NoteFlags) :
    0 ≤ (mock_predict f g fl).2.2 ∧ (mock_predict f g fl).2.2 ≤ 100 ∧
    (0.55 : ℚ) ≤ (mock_predict f g fl).2.1 ∧ (mock_predict f g fl).2.1 ≤ 0.95 ∧
    (mock_predict f g fl).2.1 =
      npClip (0.55 + |(mock_predict f g fl).2.2 - 55| / 100) 0.55 0.95 := by
  refine ⟨?_, ?_, ?_, ?_, rfl⟩
  · exact le_npClip _ _ _ (by norm_num)
  · exact npClip_le_hi _ _ _
  · exact le_npClip _ _ _ (by norm_num)
  · exact npClip_le_hi _ _ _

/-- C2: the label is "Likely Infertile" exactly when the clamped score is
at least 55 and "Likely Fertile" otherwise; in particular a score of
exactly 55 labels "Likely Infertile" and a score of 54.999 labels
"Likely Fertile". -/
theorem claim_C2 :
    (∀ (f : Features) (g : List String) (fl : NoteFlags),
        ((mock_predict f g fl).1 = likelyInfertile ↔ 55 ≤ (mock_predict f g fl).2.2) ∧
        ((mock_predict f g fl).1 = likelyFertile ↔ (mock_predict f g fl).2.2 < 55)) ∧
    labelOf 55 = likelyInfertile ∧ labelOf (54.999 : ℚ) = likelyFertile := by
  have hne : likelyInfertile ≠ likelyFertile := by decide
  refine ⟨fun f g fl => ?_, ?_, ?_⟩
  · show (labelOf (mock_score f g fl) = likelyInfertile ↔ 55 ≤ mock_score f g fl) ∧
      (labelOf (mock_score f g fl) = likelyFertile ↔ mock_score f g fl < 55)
    rw [labelOf]
    by_cases h : 55 ≤ mock_score f g fl
    · rw [if_pos h]
      constructor
      · exact ⟨fun _ => h, fun _ => rfl⟩
      · exact ⟨fun he => absurd he hne, fun hlt => absurd h (not_le.mpr hlt)⟩
    · rw [if_neg h]
      constructor
      · exact ⟨fun he => absurd he.symm hne, fun hle => absurd hle h⟩
      · exact ⟨fun _ => not_le.mp h, fun _ => rfl⟩
  · rw [labelOf, if_pos le_rfl]
  · rw [labelOf, if_neg (by norm_num)]

/-- C3: appending 25 scores to any starting log leaves exactly the last 20
appended entries, oldest first; and every `push_history` leaves a log of
length at most 20 that is a suffix (FIFO eviction of the oldest) of the
appended log. -/
theorem claim_C3 :
    (∀ (h es : List HistEntry), es.length = 25 → pushMany h es = es.drop 5) ∧
    (∀ (h : List HistEntry) (e : HistEntry),
        (push_history h e).length ≤ 20 ∧ push_history h e <:+ h ++ [e]) := by
  constructor
  · intro h es hlen
    match es, hlen with
    | e :: es', hlen =>
      rw [pushMany_cons_eq, takeLast]
      have h25 : (e :: es').length = 25 := hlen
      rw [List.length_append, h25]
      have harith : h.length + 25 - 20 = h.length + 5 := by omega
      rw [harith, List.drop_append 5]
  · intro h e
    constructor
    · rw [push_history, takeLast, List.length_drop]
      omega
    · exact List.drop_suffix _ _

/-- Witness for C3 at a concrete input: 25 identical entries pushed onto
the empty log leave the last 20 of them. -/
theorem claim_C3_witness :
    pushMany [] (List.replicate 25 ((0 : ℕ), (0 : ℚ))) =
      (List.replicate 25 ((0 : ℕ), (0 : ℚ))).drop 5 ∧
    (push_history [] ((0 : ℕ), (0 : ℚ))).length ≤ 20 :=
  ⟨claim_C3.1 [] _ rfl, (claim_C3.2 [] _).1⟩

/-- C4: with everything else fixed, decreasing AMH never decreases the
score, and increasing BMI from 18.5 upward never decreases the score
(monotonicity through the interpolation terms and the final clamp). -/
theorem claim_C4 :
    (∀ (f : Features) (g : List String) (fl : NoteFlags) (a : ℚ), a ≤ f.amh →
        mock_score f g fl ≤ mock_score { f with amh := a } g fl) ∧
    (∀ (f : Features) (g : List String) (fl : NoteFlags) (b : ℚ),
        (18.5 : ℚ) ≤ f.bmi → f.bmi ≤ b →
        mock_score f g fl ≤ mock_score { f with bmi := b } g fl) := by
  constructor
  · intro f g fl a ha
    apply npClip_mono
    unfold raw_score
    simp only
    gcongr
    exact npInterp_anti (by norm_num) (by norm_num) ha
  · intro f g fl b hb1 hb2
    apply npClip_mono
    unfold raw_score
    simp only
    gcongr
    exact npInterp_mono (by norm_num) (by norm_num) hb2

/-- Witness for C4 at concrete inputs: lowering AMH from 2.5 to 1 and
raising BMI from 22 to 30 do not decrease the score. -/
theorem claim_C4_witness :
    mock_score scenarioFeatures [] noFlags ≤
      mock_score { scenarioFeatures with amh := 1 } [] noFlags ∧
    mock_score scenarioFeatures [] noFlags ≤
      mock_score { scenarioFeatures with bmi := 30 } [] noFlags :=
  ⟨claim_C4.1 scenarioFeatures [] noFlags 1 (by norm_num [scenarioFeatures]),
    claim_C4.2 scenarioFeatures [] noFlags 30 (by norm_num [scenarioFeatures])
      (by norm_num [scenarioFeatures])⟩

/-- C5: both recommendation lists are duplicate-free and equal the
first-insertion-order deduplication of their raw rule-table output, so a
string contributed by several rule branches appears once, at the position
of its first trigger. -/
theorem claim_C5 (h : Features) (g : List String) (fl : NoteFlags) :
    suggest_tests h g fl = firstOccurrenceDedup (raw_tests h g fl) ∧
    (suggest_tests h g fl).Nodup ∧
    suggest_medicines h g fl = firstOccurrenceDedup (raw_meds h g fl) ∧
    (suggest_medicines h g fl).Nodup :=
  ⟨dedupFirst_eq_firstOccurrenceDedup _, nodup_dedupFirst _,
    dedupFirst_eq_firstOccurrenceDedup _, nodup_dedupFirst _⟩

/-- C6: for age 30, BMI 22.0, AMH 2.5, FSH 6.0, LH 5.0, estradiol 50,
no genes and no flags, the score is strictly below 55 with label
"Likely Fertile", and the suggested tests include the HSG item and no
AFC, OGTT or TSH-specific items. -/
theorem claim_C6 :
    (mock_predict scenarioFeatures [] noFlags).2.2 < 55 ∧
    (mock_predict scenarioFeatures [] noFlags).1 = likelyFertile ∧
    tHSG ∈ suggest_tests scenarioFeatures [] noFlags ∧
    tAFC ∉ suggest_tests scenarioFeatures [] noFlags ∧
    tOGTT ∉ suggest_tests scenarioFeatures [] noFlags ∧
    tTSH ∉ suggest_tests scenarioFeatures [] noFlags ∧
    tFreeT4 ∉ suggest_tests scenarioFeatures [] noFlags ∧
    tAntiTPO ∉ suggest_tests scenarioFeatures [] noFlags := by
  have hlt : mock_score scenarioFeatures [] noFlags < 55 := by
    norm_num [mock_score, raw_score, npClip, npInterp, estradiol_term, gene_risk,
      flag_bonus, riskGenes, scenarioFeatures, noFlags]
  have ht : suggest_tests scenarioFeatures [] noFlags = [tHSG] := by
    norm_num [suggest_tests, raw_tests, scenarioFeatures, noFlags, dedupFirst,
      dedupFirstAux]
  refine ⟨hlt, ?_, ?_, ?_, ?_, ?_, ?_, ?_⟩
  · show labelOf (mock_score scenarioFeatures [] noFlags) = likelyFertile
    rw [labelOf, if_neg (not_le.mpr hlt)]
  all_goals rw [ht]
  · decide
  all_goals decide

/-- C7 counterexample: with empty test and medicine lists the planner's
output is exactly the branch steps — no summarization line is appended,
contradicting the claim that one is appended for every test list and
medicine list. -/
theorem claim_C7_counterexample :
    agentic_next_steps 0 noFlags [] [] = branch_steps 0 noFlags ∧
    agentic_next_steps 0 noFlags [] [] = [sMaintain, sTiming] := by
  constructor
  · rw [agentic_next_steps]; simp
  · rw [agentic_next_steps, branch_steps, if_neg (by norm_num : ¬ (55 : ℚ) ≤ 0)]
    simp [noFlags]

/-- C7 amended: after the branch steps chosen by the 55 threshold, the
planner appends a tests-summarization line only when the test list is
nonempty and a medicines-summarization line only when the medicine list
is nonempty; each line lists up to the first 5 names, truncated with an
ellipsis marker when the list has more than 5 entries. -/
theorem claim_C7_amended (score : ℚ) (flags : NoteFlags) (tests meds : List String) :
    agentic_next_steps score flags tests meds =
      branch_steps score flags
        ++ (if tests = [] then [] else
              [("Order tests: ") ++ (String.intercalate (", ") (tests.take 5)
                ++ (if 5 < tests.length then ellipsisMark else ("" : String)))])
        ++ (if meds = [] then [] else
              [("Start/consider meds: ") ++ (String.intercalate (", ") (meds.take 5)
                ++ (if 5 < meds.length then ellipsisMark else ("" : String)))]) := by
  cases tests <;> cases meds <;> simp [agentic_next_steps, firstFive]

/-- C8: every run of the scoring pipeline appends exactly one
(timestamp, score) entry — the score the scorer returned — to the history
log and truncates it to the 20 most recent entries; the history is the
only persistent session field the pipeline touches (the session state
consists of the history alone). -/
theorem claim_C8 (now : ℕ) (f : Features) (g : List String) (notes : String)
    (s : SessionState) :
    (run_pipeline now f g notes s).2.history =
        takeLast 20 (s.history ++ [(now, (run_pipeline now f g notes s).1.score)]) ∧
    (run_pipeline now f g notes s).1.score = mock_score f g (parse_notes notes) ∧
    ((run_pipeline now f g notes s).2.history).length = min (s.history.length + 1) 20 ∧
    (run_pipeline now f g notes s).2.history <:+
      s.history ++ [(now, (run_pipeline now f g notes s).1.score)] := by
  refine ⟨rfl, rfl, ?_, ?_⟩
  · show (push_history s.history _).length = _
    rw [push_history, takeLast, List.length_drop, List.length_append]
    simp only [List.length_singleton]
    omega
  · exact List.drop_suffix _ _

/-- C9: the notes text "Chronic pelvic pain, dysmenorrhea, dyspareunia
suspected" sets exactly the endometriosis flag and no other. -/
theorem claim_C9 :
    parse_notes ("Chronic pelvic pain, dysmenorrhea, dyspareunia suspected") =
      { pcos := false, endometriosis := true, irregular_cycles := false, thyroid := false,
        male_factor := false, infection := false, hyperprolactinemia := false } := by
  decide

/-- C10: for every input whatsoever, the suggested tests contain the
unconditional HSG item and the suggested medicines contain the
unconditional folic-acid and vitamin-D items, so neither list is ever
empty (each component is a total function; the degenerate empty-input
case is well-defined, not an error). -/
theorem claim_C10 (h : Features) (g : List String) (fl : NoteFlags) :
    tHSG ∈ suggest_tests h g fl ∧ mFolic ∈ suggest_medicines h g fl ∧
    mVitD ∈ suggest_medicines h g fl ∧
    suggest_tests h g fl ≠ [] ∧ suggest_medicines h g fl ≠ [] := by
  have h1 : tHSG ∈ raw_tests h g fl := by simp [raw_tests]
  have h2 : mFolic ∈ raw_meds h g fl := by simp [raw_meds]
  have h3 : mVitD ∈ raw_meds h g fl := by simp [raw_meds]
  have m1 : tHSG ∈ suggest_tests h g fl := (mem_dedupFirst _).mpr h1
  have m2 : mFolic ∈ suggest_medicines h g fl := (mem_dedupFirst _).mpr h2
  have m3 : mVitD ∈ suggest_medicines h g fl := (mem_dedupFirst _).mpr h3
  exact ⟨m1, m2, m3, List.ne_nil_of_mem m1, List.ne_nil_of_mem m2⟩

end Genovive
